import Mathlib

/-!
Verification of the support-ticket backend (`src/backend-server.js`).

The file shallowly embeds the Express route handlers as pure Lean
functions over explicit stores (lists of rows).  SQL timestamps are
modelled as naturals (`now` is passed explicitly); `CURRENT_TIMESTAMP`
becomes that parameter.  A JSON body with optionally-present keys is
modelled with `Option` fields (`none` = the key is absent, i.e.
`undefined` in the JS handler); a nullable column is `Option` in the
row type, so a body field that may be absent, null, or a value is
`Option (Option _)`.
-/

namespace Backend

/-- A row of the `users` table (the columns the ticket routes read). -/
structure User where
  user_id : Nat
  email : String
  full_name : String
  role : String
deriving DecidableEq

/-- A row of the `tickets` table. -/
structure Ticket where
  ticket_id : Nat
  client_id : Nat
  title : String
  description : String
  priority : String
  category : String
  status : String
  assigned_to : Option Nat
  resolution_notes : Option String
  created_at : Nat
  updated_at : Nat
  closed_at : Option Nat
deriving DecidableEq

/-- A row of the `comments` table. -/
structure Comment where
  comment_id : Nat
  ticket_id : Nat
  user_id : Nat
  comment_text : String
  created_at : Nat
deriving DecidableEq

/-- The decoded JWT payload attached as `req.user` by `authenticateToken`:
`{ userId, email, role }` as signed at login. -/
structure AuthUser where
  userId : Nat
  email : String
  role : String
deriving DecidableEq

/-- Result row of the ticket listing queries: `t.*` plus the two
`LEFT JOIN users` display-name columns `client_name` / `assigned_to_name`. -/
structure TicketRow where
  ticket : Ticket
  client_name : Option String
  assigned_to_name : Option String
deriving DecidableEq

/-- Result row of the comment listing query: `c.*` plus `author_name`. -/
structure CommentRow where
  comment : Comment
  author_name : Option String
deriving DecidableEq

/-- Error outcomes the ticket routes can signal (HTTP 404). -/
inductive Err where
  | notFound
deriving DecidableEq

/-- The `LEFT JOIN users u ON t.client_id = u.user_id` /
`LEFT JOIN users a ON t.assigned_to = a.user_id` projection of one ticket. -/
def ticketRow (users : List User) (t : Ticket) : TicketRow :=
  { ticket := t
    client_name := (users.find? (fun u => u.user_id == t.client_id)).map User.full_name
    assigned_to_name :=
      t.assigned_to.bind fun a => (users.find? (fun u => u.user_id == a)).map User.full_name }

/-- The `LEFT JOIN users u ON c.user_id = u.user_id` projection of one comment. -/
def commentRow (users : List User) (c : Comment) : CommentRow :=
  { comment := c
    author_name := (users.find? (fun u => u.user_id == c.user_id)).map User.full_name }

/-- Handler of `GET /api/tickets` (lines 112-132): if `req.user.role === 'client'`
the query gets `WHERE t.client_id = $1`, otherwise no filter; both branches
append `ORDER BY t.created_at DESC`. -/
def getTickets (users : List User) (caller : AuthUser) (tickets : List Ticket) :
    List TicketRow :=
  let scopedRows :=
    if caller.role = "client" then tickets.filter (fun t => t.client_id == caller.userId)
    else tickets
  (scopedRows.map (ticketRow users)).mergeSort
    (fun a b => b.ticket.created_at ≤ a.ticket.created_at)

/-- Handler of `GET /api/tickets/:id` (lines 134-153): selects the row with
`WHERE t.ticket_id = $1` and answers 404 when no row matches.  `req.user`
is available but never consulted: there is no role or ownership check. -/
def getTicketById (users : List User) (caller : AuthUser) (id : Nat)
    (tickets : List Ticket) : Except Err TicketRow :=
  match tickets.find? (fun t => t.ticket_id == id) with
  | none => .error .notFound
  | some t => .ok (ticketRow users t)

/-- The JSON body of `POST /api/tickets`.  The handler destructures only
`title`, `description`, `priority`, `category`; any `client_id`, `status`
or `closed_at` key a caller puts in the payload is representable here but
never read. -/
structure CreateBody where
  title : String
  description : String
  priority : Option String
  category : Option String
  client_id : Option Nat
  status : Option String
  closed_at : Option Nat
deriving DecidableEq

/-- JavaScript `v || d` for an optionally-present string payload field:
both a missing key and the empty string (falsy) fall back to the default. -/
def jsOrString (v : Option String) (d : String) : String :=
  match v with
  | some s => if s = "" then d else s
  | none => d

/-- Modelled from the spec: the `CREATE TABLE tickets` schema is not in the
repository, so the column defaults the `INSERT` relies on are taken from
spec section 3: `status` defaults to `open`, `assigned_to`,
`resolution_notes` and `closed_at` are null, and `created_at` / `updated_at`
are set to now. -/
def defaultTicket (now : Nat) : Ticket :=
  { ticket_id := 0
    client_id := 0
    title := ""
    description := ""
    priority := "medium"
    category := "general"
    status := "open"
    assigned_to := none
    resolution_notes := none
    created_at := now
    updated_at := now
    closed_at := none }

/-- The row inserted by `POST /api/tickets` (lines 155-170):
`INSERT INTO tickets (client_id, title, description, priority, category)`
with `client_id` taken from `req.user.userId` and the JS defaults
`priority || 'medium'`, `category || 'general'`; every other column takes
its schema default (see `defaultTicket`). -/
def createTicket (caller : AuthUser) (body : CreateBody) (now new_id : Nat) : Ticket :=
  { defaultTicket now with
    ticket_id := new_id
    client_id := caller.userId
    title := body.title
    description := body.description
    priority := jsOrString body.priority "medium"
    category := jsOrString body.category "general" }

/-- Handler of `POST /api/tickets`: inserts the new row and returns it
(`RETURNING *`, status 201).  There is no validation branch: the handler
never rejects an empty `title` or `description`. -/
def postTickets (caller : AuthUser) (body : CreateBody) (now new_id : Nat)
    (tickets : List Ticket) : List Ticket × Ticket :=
  let t := createTicket caller body now new_id
  (tickets ++ [t], t)

/-- The JSON body of `PUT /api/tickets/:id`.  The handler tests each key
with `!== undefined`, so a key may be absent (`none`), or present with a
value; for the two nullable columns a present key may also carry null
(`some none`). -/
structure UpdateBody where
  status : Option String
  priority : Option String
  assigned_to : Option (Option Nat)
  resolution_notes : Option (Option String)
deriving DecidableEq

/-- The mutation the `PUT` handler's assembled `UPDATE ... SET` applies to
one matching row (lines 176-207): each field present in the body is set,
absent fields are untouched, `closed_at = CURRENT_TIMESTAMP` is added
exactly when the incoming `status` strictly equals `'closed'`, and
`updated_at = CURRENT_TIMESTAMP` is always added. -/
def applyUpdate (body : UpdateBody) (now : Nat) (t : Ticket) : Ticket :=
  { t with
    status := body.status.getD t.status
    priority := body.priority.getD t.priority
    assigned_to := body.assigned_to.getD t.assigned_to
    resolution_notes := body.resolution_notes.getD t.resolution_notes
    closed_at := if body.status = some "closed" then some now else t.closed_at
    updated_at := now }

/-- Handler of `PUT /api/tickets/:id`: runs the assembled `UPDATE` with
`WHERE ticket_id = $n RETURNING *`, answers 404 when no row matched, and
otherwise returns the updated row.  `req.user` is attached by the
middleware but never consulted: the handler performs no role or ownership
check before applying the mutation. -/
def putTicket (caller : AuthUser) (id : Nat) (body : UpdateBody) (now : Nat)
    (tickets : List Ticket) : Except Err (List Ticket × Ticket) :=
  let updated := tickets.map (fun t => if t.ticket_id = id then applyUpdate body now t else t)
  match updated.find? (fun t => t.ticket_id == id) with
  | none => .error .notFound
  | some t => .ok (updated, t)

/-- Handler of `GET /api/tickets/:id/comments` (lines 220-235): selects the
comments with `WHERE c.ticket_id = $1 ORDER BY c.created_at ASC` and always
answers 200 with the rows.  It never consults the tickets table, so a
nonexistent ticket id yields `ok []`, not a 404. -/
def getComments (users : List User) (caller : AuthUser) (id : Nat)
    (comments : List Comment) : Except Err (List CommentRow) :=
  .ok (((comments.filter (fun c => c.ticket_id == id)).map (commentRow users)).mergeSort
    (fun a b => a.comment.created_at ≤ b.comment.created_at))

/-- The summary computed by `GET /api/dashboard/stats` (lines 255-271). -/
structure DashStats where
  open_tickets : Nat
  in_progress_tickets : Nat
  closed_tickets : Nat
  total_tickets : Nat
deriving DecidableEq

/-- Handler of `GET /api/dashboard/stats`: filtered counts over `tickets`,
with `WHERE client_id = $1` appended exactly when `req.user.role === 'client'`. -/
def getDashboardStats (caller : AuthUser) (tickets : List Ticket) : DashStats :=
  let scopedRows :=
    if caller.role = "client" then tickets.filter (fun t => t.client_id == caller.userId)
    else tickets
  { open_tickets := scopedRows.countP (fun t => t.status == "open")
    in_progress_tickets := scopedRows.countP (fun t => t.status == "in_progress")
    closed_tickets := scopedRows.countP (fun t => t.status == "closed")
    total_tickets := scopedRows.length }

/-- One state-changing request against the tickets store: a `POST /api/tickets`
or a `PUT /api/tickets/:id` (the only two routes that write the table). -/
inductive Op where
  | create (caller : AuthUser) (body : CreateBody) (now new_id : Nat)
  | update (caller : AuthUser) (id : Nat) (body : UpdateBody) (now : Nat)
deriving DecidableEq

/-- Effect of one request on the tickets table (the 404 branch of `PUT`
leaves the table unchanged, which the row-wise map already captures). -/
def applyOp (tickets : List Ticket) (op : Op) : List Ticket :=
  match op with
  | .create caller body now new_id => (postTickets caller body now new_id tickets).1
  | .update _ id body now =>
      tickets.map (fun t => if t.ticket_id = id then applyUpdate body now t else t)

/-- The tickets table produced by a sequence of write requests starting
from the empty table. -/
def runOps (ops : List Op) : List Ticket :=
  ops.foldl applyOp []

/-- Whether a request is an update whose patch sets `status` to `closed` —
the only kind of request whose mutation set includes `closed_at`. -/
def closesTicket : Op → Bool
  | .update _ _ body _ => body.status == some "closed"
  | _ => false

theorem ticketRow_ticket (users : List User) (t : Ticket) :
    (ticketRow users t).ticket = t := rfl

/-- C5: whenever the update body carries `status = "closed"`, the mutation
stamps `closed_at` with the current time — unconditionally, so an
already-closed ticket gets its `closed_at` overwritten with the new time. -/
theorem c5_close_restamps_closed_at (body : UpdateBody) (now : Nat) (t : Ticket)
    (h : body.status = some "closed") :
    (applyUpdate body now t).closed_at = some now := by
  simp [applyUpdate, h]

theorem c5_close_restamps_closed_at_witness :
    (({ status := some "closed", priority := none, assigned_to := none,
        resolution_notes := none } : UpdateBody).status = some "closed") ∧
    (applyUpdate
      { status := some "closed", priority := none, assigned_to := none,
        resolution_notes := none } 9
      { ticket_id := 1, client_id := 7, title := "T", description := "D",
        priority := "medium", category := "general", status := "closed",
        assigned_to := none, resolution_notes := none, created_at := 0,
        updated_at := 4, closed_at := some 4 }).closed_at = some 9 :=
  ⟨rfl, c5_close_restamps_closed_at _ 9 _ rfl⟩

/-- C7: a patch carrying only `priority` changes exactly `priority` and
`updated_at`; `status`, `assigned_to`, `resolution_notes` and every other
column keep their previous values (absent body keys mean leave unchanged). -/
theorem c7_priority_only_patch (p : String) (now : Nat) (t : Ticket) :
    applyUpdate
      { status := none, priority := some p, assigned_to := none,
        resolution_notes := none } now t =
      { t with priority := p, updated_at := now } := rfl

/-- C10: the created ticket's `client_id` comes from the authenticated
caller, its `status` starts as the default `open` with `closed_at` null,
and any `client_id`, `status` or `closed_at` key in the request payload is
ignored (the result does not depend on them). -/
theorem c10_create_uses_caller_identity (caller : AuthUser) (body : CreateBody)
    (now new_id : Nat) :
    (createTicket caller body now new_id).client_id = caller.userId ∧
    (createTicket caller body now new_id).status = "open" ∧
    (createTicket caller body now new_id).closed_at = none ∧
    ∀ cid st ca,
      createTicket caller
        { body with client_id := cid, status := st, closed_at := ca } now new_id =
      createTicket caller body now new_id :=
  ⟨rfl, rfl, rfl, fun _ _ _ => rfl⟩

/-- C1: ticket listing is scoped by role: a ticket appears among the listed
rows exactly when it is in the store and, for a caller in role `client`,
is owned by that caller; any other role sees every ticket. -/
theorem c1_list_scoped_by_role (users : List User) (caller : AuthUser)
    (tickets : List Ticket) (t : Ticket) :
    (∃ row ∈ getTickets users caller tickets, row.ticket = t) ↔
      t ∈ tickets ∧ (caller.role = "client" → t.client_id = caller.userId) := by
  unfold getTickets
  by_cases h : caller.role = "client"
  · rw [if_pos h]
    simp only [List.mem_mergeSort, List.mem_map, List.mem_filter, beq_iff_eq]
    constructor
    · rintro ⟨row, ⟨a, ⟨ha, hcl⟩, rfl⟩, ht⟩
      rw [ticketRow_ticket] at ht
      subst ht
      exact ⟨ha, fun _ => hcl⟩
    · rintro ⟨ht, hcl⟩
      exact ⟨ticketRow users t, ⟨t, ⟨ht, hcl h⟩, rfl⟩, ticketRow_ticket users t⟩
  · rw [if_neg h]
    simp only [List.mem_mergeSort, List.mem_map]
    constructor
    · rintro ⟨row, ⟨a, ha, rfl⟩, ht⟩
      rw [ticketRow_ticket] at ht
      subst ht
      exact ⟨ha, fun hc => absurd hc h⟩
    · rintro ⟨ht, -⟩
      exact ⟨ticketRow users t, ⟨t, ht, rfl⟩, ticketRow_ticket users t⟩

theorem countP_getTickets (users : List User) (caller : AuthUser)
    (tickets : List Ticket) (p : Ticket → Bool) :
    (getTickets users caller tickets).countP (fun row => p row.ticket) =
      (if caller.role = "client" then
        tickets.filter (fun t => t.client_id == caller.userId)
      else tickets).countP p := by
  unfold getTickets
  rw [List.Perm.countP_eq _ (List.mergeSort_perm _ _), List.countP_map]
  rfl

theorem length_getTickets (users : List User) (caller : AuthUser)
    (tickets : List Ticket) :
    (getTickets users caller tickets).length =
      (if caller.role = "client" then
        tickets.filter (fun t => t.client_id == caller.userId)
      else tickets).length := by
  unfold getTickets
  rw [List.length_mergeSort, List.length_map]

/-- C4: for every caller (any role and id), the dashboard's four counts
coincide with the cardinalities of the rows that same caller's listing
returns, partitioned by status, with the total equal to the number of
listed rows. -/
theorem c4_stats_consistent_with_list (users : List User) (caller : AuthUser)
    (tickets : List Ticket) :
    (getDashboardStats caller tickets).open_tickets =
        (getTickets users caller tickets).countP (fun row => row.ticket.status == "open") ∧
    (getDashboardStats caller tickets).in_progress_tickets =
        (getTickets users caller tickets).countP
          (fun row => row.ticket.status == "in_progress") ∧
    (getDashboardStats caller tickets).closed_tickets =
        (getTickets users caller tickets).countP (fun row => row.ticket.status == "closed") ∧
    (getDashboardStats caller tickets).total_tickets =
        (getTickets users caller tickets).length := by
  refine ⟨?_, ?_, ?_, ?_⟩
  · rw [countP_getTickets users caller tickets (fun t => t.status == "open")]
    rfl
  · rw [countP_getTickets users caller tickets (fun t => t.status == "in_progress")]
    rfl
  · rw [countP_getTickets users caller tickets (fun t => t.status == "closed")]
    rfl
  · rw [length_getTickets users caller tickets]
    rfl

/-- C2 (code bug evidence): a caller in role `client` sending a patch for
`status`, `priority`, `assigned_to` and `resolution_notes` has the whole
mutation applied — the `PUT` handler contains no role check, so nothing is
refused. -/
theorem c2_client_update_is_applied :
    putTicket { userId := 7, email := "c@x", role := "client" } 1
      { status := some "closed", priority := some "high",
        assigned_to := some (some 3), resolution_notes := some (some "done") } 9
      [{ ticket_id := 1, client_id := 7, title := "T", description := "D",
         priority := "medium", category := "general", status := "open",
         assigned_to := none, resolution_notes := none, created_at := 0,
         updated_at := 0, closed_at := none }] =
    .ok
      ([{ ticket_id := 1, client_id := 7, title := "T", description := "D",
          priority := "high", category := "general", status := "closed",
          assigned_to := some 3, resolution_notes := some "done", created_at := 0,
          updated_at := 9, closed_at := some 9 }],
        { ticket_id := 1, client_id := 7, title := "T", description := "D",
          priority := "high", category := "general", status := "closed",
          assigned_to := some 3, resolution_notes := some "done", created_at := 0,
          updated_at := 9, closed_at := some 9 }) := rfl

/-- C3 (code bug evidence): a caller in role `client` with id 9 fetching a
ticket owned by client 7 receives the full ticket row — the single-ticket
handler performs no ownership check. -/
theorem c3_client_reads_foreign_ticket :
    getTicketById [] { userId := 9, email := "c@x", role := "client" } 1
      [{ ticket_id := 1, client_id := 7, title := "T", description := "D",
         priority := "medium", category := "general", status := "open",
         assigned_to := none, resolution_notes := none, created_at := 0,
         updated_at := 0, closed_at := none }] =
    .ok
      { ticket := { ticket_id := 1, client_id := 7, title := "T", description := "D",
                    priority := "medium", category := "general", status := "open",
                    assigned_to := none, resolution_notes := none, created_at := 0,
                    updated_at := 0, closed_at := none },
        client_name := none, assigned_to_name := none } := rfl

/-- C8 (counterexample): creating a ticket with empty `title` and empty
`description` succeeds — the store grows from zero to one row and the
inserted row carries the empty title, so no `ValidationError` occurred. -/
theorem c8_empty_create_succeeds :
    (postTickets { userId := 7, email := "c@x", role := "client" }
      { title := "", description := "", priority := none, category := none,
        client_id := none, status := none, closed_at := none } 3 1 []).1.length = 1 ∧
    (postTickets { userId := 7, email := "c@x", role := "client" }
      { title := "", description := "", priority := none, category := none,
        client_id := none, status := none, closed_at := none } 3 1 []).2.title = "" :=
  ⟨rfl, rfl⟩

/-- C8 (amended): creation performs no emptiness validation: even when
`title` or `description` is empty the handler inserts the row (the store
grows by one) and the new ticket carries the empty field verbatim. -/
theorem c8_no_validation (caller : AuthUser) (body : CreateBody)
    (now new_id : Nat) (tickets : List Ticket)
    (h : body.title = "" ∨ body.description = "") :
    (postTickets caller body now new_id tickets).1.length = tickets.length + 1 ∧
    (postTickets caller body now new_id tickets).2.title = body.title ∧
    (postTickets caller body now new_id tickets).2.description = body.description := by
  refine ⟨?_, rfl, rfl⟩
  simp [postTickets]

theorem c8_no_validation_witness :
    (("" : String) = "" ∨ ("desc" : String) = "") ∧
    ((postTickets { userId := 7, email := "c@x", role := "client" }
      { title := "", description := "desc", priority := none, category := none,
        client_id := none, status := none, closed_at := none } 3 1 []).1.length = 0 + 1 ∧
    (postTickets { userId := 7, email := "c@x", role := "client" }
      { title := "", description := "desc", priority := none, category := none,
        client_id := none, status := none, closed_at := none } 3 1 []).2.title = "" ∧
    (postTickets { userId := 7, email := "c@x", role := "client" }
      { title := "", description := "desc", priority := none, category := none,
        client_id := none, status := none, closed_at := none } 3 1 []).2.description = "desc") :=
  ⟨Or.inl rfl,
    c8_no_validation { userId := 7, email := "c@x", role := "client" }
      { title := "", description := "desc", priority := none, category := none,
        client_id := none, status := none, closed_at := none } 3 1 [] (Or.inl rfl)⟩

/-- C9 (counterexample): with a store whose only ticket has id 1, listing
the comments of the nonexistent ticket 42 answers `ok` with the empty row
list — not `NotFound`; the handler does not even receive the tickets table. -/
theorem c9_missing_ticket_comments_ok :
    ([({ ticket_id := 1, client_id := 7, title := "T", description := "D",
         priority := "medium", category := "general", status := "open",
         assigned_to := none, resolution_notes := none, created_at := 0,
         updated_at := 0, closed_at := none } : Ticket)].all
      (fun t => t.ticket_id != 42)) = true ∧
    getComments [] { userId := 7, email := "c@x", role := "client" } 42
      [{ comment_id := 1, ticket_id := 1, user_id := 7, comment_text := "hi",
         created_at := 2 }] = .ok [] :=
  ⟨rfl, by simp [getComments]⟩

/-- C9 (amended): the comment-listing handler never signals `NotFound`;
for an id that no stored comment references (in particular any nonexistent
ticket id) it succeeds with the empty sequence. -/
theorem c9_no_not_found (users : List User) (caller : AuthUser) (id : Nat)
    (comments : List Comment)
    (h : comments.all (fun c => c.ticket_id != id) = true) :
    getComments users caller id comments = .ok [] := by
  unfold getComments
  have hf : comments.filter (fun c => c.ticket_id == id) = [] := by
    rw [List.filter_eq_nil_iff]
    intro c hc
    have := List.all_eq_true.mp h c hc
    simpa using this
  rw [hf]
  simp

theorem closed_at_some_of_foldl (ops : List Op) :
    ∀ (s : List Ticket) (t : Ticket), t ∈ ops.foldl applyOp s →
      t.closed_at.isSome = true →
      (∃ t0 ∈ s, t0.closed_at.isSome = true) ∨ ops.any closesTicket = true := by
  induction ops with
  | nil =>
      intro s t hm hc
      exact Or.inl ⟨t, hm, hc⟩
  | cons op ops ih =>
      intro s t hm hc
      rw [List.foldl_cons] at hm
      rcases ih (applyOp s op) t hm hc with ⟨t0, ht0, hc0⟩ | h
      · cases op with
        | create caller body now new_id =>
            simp only [applyOp, postTickets] at ht0
            rcases List.mem_append.mp ht0 with h1 | h1
            · exact Or.inl ⟨t0, h1, hc0⟩
            · rw [List.mem_singleton] at h1
              subst h1
              exact absurd hc0 (by simp [createTicket, defaultTicket])
        | update caller2 id body now =>
            simp only [applyOp] at ht0
            rcases List.mem_map.mp ht0 with ⟨t1, ht1, rfl⟩
            by_cases hcl : body.status = some "closed"
            · exact Or.inr (by simp [closesTicket, hcl])
            · refine Or.inl ⟨t1, ht1, ?_⟩
              by_cases hid : t1.ticket_id = id
              · simpa [hid, applyUpdate, hcl] using hc0
              · simpa [hid] using hc0
      · exact Or.inr (by simp [h])

/-- C6: over every sequence of write requests starting from the empty
store, a ticket whose `closed_at` is non-null can only arise when some
request in the sequence was an update whose patch set `status` to
`closed`; creation and every other update leave `closed_at` untouched. -/
theorem c6_closed_at_needs_close_request (ops : List Op) (t : Ticket)
    (hm : t ∈ runOps ops) (hc : t.closed_at.isSome = true) :
    ops.any closesTicket = true := by
  rcases closed_at_some_of_foldl ops [] t hm hc with ⟨t0, ht0, -⟩ | h
  · exact absurd ht0 (List.not_mem_nil t0)
  · exact h

theorem c6_closed_at_needs_close_request_witness :
    (({ ticket_id := 1, client_id := 1, title := "T", description := "D",
        priority := "medium", category := "general", status := "closed",
        assigned_to := none, resolution_notes := none, created_at := 0,
        updated_at := 5, closed_at := some 5 } : Ticket) ∈
      runOps
        [Op.create { userId := 1, email := "a@x", role := "client" }
          { title := "T", description := "D", priority := none, category := none,
            client_id := none, status := none, closed_at := none } 0 1,
         Op.update { userId := 2, email := "b@x", role := "consultant" } 1
          { status := some "closed", priority := none, assigned_to := none,
            resolution_notes := none } 5]) ∧
    (({ ticket_id := 1, client_id := 1, title := "T", description := "D",
        priority := "medium", category := "general", status := "closed",
        assigned_to := none, resolution_notes := none, created_at := 0,
        updated_at := 5, closed_at := some 5 } : Ticket).closed_at.isSome = true) ∧
    ([Op.create { userId := 1, email := "a@x", role := "client" }
        { title := "T", description := "D", priority := none, category := none,
          client_id := none, status := none, closed_at := none } 0 1,
      Op.update { userId := 2, email := "b@x", role := "consultant" } 1
        { status := some "closed", priority := none, assigned_to := none,
          resolution_notes := none } 5].any closesTicket = true) :=
  ⟨by decide, rfl,
    c6_closed_at_needs_close_request
      [Op.create { userId := 1, email := "a@x", role := "client" }
        { title := "T", description := "D", priority := none, category := none,
          client_id := none, status := none, closed_at := none } 0 1,
       Op.update { userId := 2, email := "b@x", role := "consultant" } 1
        { status := some "closed", priority := none, assigned_to := none,
          resolution_notes := none } 5]
      { ticket_id := 1, client_id := 1, title := "T", description := "D",
        priority := "medium", category := "general", status := "closed",
        assigned_to := none, resolution_notes := none, created_at := 0,
        updated_at := 5, closed_at := some 5 }
      (by decide) rfl⟩

theorem c9_no_not_found_witness :
    (([({ comment_id := 1, ticket_id := 1, user_id := 7, comment_text := "hi",
          created_at := 2 } : Comment)].all (fun c => c.ticket_id != 42)) = true) ∧
    getComments [] { userId := 7, email := "c@x", role := "client" } 42
      [{ comment_id := 1, ticket_id := 1, user_id := 7, comment_text := "hi",
         created_at := 2 }] = .ok [] :=
  ⟨rfl,
    c9_no_not_found [] { userId := 7, email := "c@x", role := "client" } 42
      [{ comment_id := 1, ticket_id := 1, user_id := 7, comment_text := "hi",
         created_at := 2 }] rfl⟩

end Backend
